import Mathlib

/-!
Shallow embedding of the prompt-evaluation pipeline of this repository
(`src/evaluate.py`, `src/push_prompts.py`, `src/pull_prompts.py`) and proofs
of the specification's claims about it.

Python floats are modelled as rationals (`ℚ`); Python dicts of strings as
association lists with first-binding lookup; fallible external calls
(`hub.pull`, model invocation, file I/O) as `Except`/`Option` parameters, so
that each definition is a total function of the outcome of those calls.
-/

/-- The four aggregate metric fields returned by `evaluate_prompt`
(`src/evaluate.py`, lines 222-227): the `AggregateScores` record. -/
structure Scores where
  tone : ℚ
  acceptance_criteria : ℚ
  format : ℚ
  completeness : ℚ
deriving DecidableEq, Repr

/-- Embedding of `display_results` (`src/evaluate.py`, lines 239-258): prints the scores and
returns `all(score >= 0.9 for score in scores.values())`, the Verdict.  The
printing is side-effect only; the returned boolean is the modelled value. -/
def display_results (scores : Scores) : Bool :=
  decide ((0.9 : ℚ) ≤ scores.tone) &&
  decide ((0.9 : ℚ) ≤ scores.acceptance_criteria) &&
  decide ((0.9 : ℚ) ≤ scores.format) &&
  decide ((0.9 : ℚ) ≤ scores.completeness)

/-- An environment: each variable name is either set to a string or unset. -/
def Env : Type := String → Option String

/-- Modelled from the spec: `check_env_vars` lives in `src/utils.py`, which is
not part of the provided sources.  Per the spec's error taxonomy
("Configuration errors (missing required credential/env var): fatal to the
whole run, ... process exits non-zero before any evaluation starts"), it
returns `true` iff every required variable is present in the environment. -/
def check_env_vars (env : Env) (required : List String) : Bool :=
  required.all (fun v => (env v).isSome)

/-- The `required_vars` list built by `main` (`src/evaluate.py`, lines
284-292): always `LANGSMITH_API_KEY` and `LLM_PROVIDER`, plus the
provider-specific credential, where the provider defaults to `"openai"`. -/
def required_vars (env : Env) : List String :=
  let provider := (env "LLM_PROVIDER").getD "openai"
  ["LANGSMITH_API_KEY", "LLM_PROVIDER"] ++
    (if provider = "openai" then ["OPENAI_API_KEY"]
     else if provider = "google" ∨ provider = "gemini" then ["GOOGLE_API_KEY"]
     else [])

/-- The inputs `main` (`src/evaluate.py`, lines 261-348) depends on: the
process environment, whether `datasets/bug_to_user_story.jsonl` exists, and
the `AggregateScores` that `evaluate_prompt` returns for the one prompt
evaluated (`evaluate_prompt` catches every exception, so it always returns a
record). -/
structure MainConfig where
  env : Env
  datasetFileExists : Bool
  scores : Scores

/-- The exit code of `main` (`src/evaluate.py`, lines 295-348): `1` when
`check_env_vars` fails, `1` when the dataset file is missing, otherwise
`0` iff `display_results` returned `True` (with a single prompt,
`all_passed = True and passed`). -/
def main_exit (cfg : MainConfig) : Nat :=
  if check_env_vars cfg.env (required_vars cfg.env) = false then 1
  else if cfg.datasetFileExists = false then 1
  else if display_results cfg.scores then 0 else 1

/-- C1: the Verdict computed by `display_results` is pass iff all four scores
are ≥ 0.9 (0.9 exactly passes, 0.8999 fails), and `main` returns exit code 0
iff the setup succeeded and the Verdict is pass, returning 1 in every other
case (missing environment variables, missing dataset file, failed Verdict). -/
theorem verdict_and_exit_code (s : Scores) (cfg : MainConfig) :
    (display_results s = true ↔
      ((0.9 : ℚ) ≤ s.tone ∧ (0.9 : ℚ) ≤ s.acceptance_criteria ∧
       (0.9 : ℚ) ≤ s.format ∧ (0.9 : ℚ) ≤ s.completeness)) ∧
    display_results ⟨0.9, 0.9, 0.9, 0.9⟩ = true ∧
    display_results ⟨0.8999, 0.9, 0.9, 0.9⟩ = false ∧
    (main_exit cfg = 0 ↔
      (check_env_vars cfg.env (required_vars cfg.env) = true ∧
       cfg.datasetFileExists = true ∧ display_results cfg.scores = true)) ∧
    (main_exit cfg = 0 ∨ main_exit cfg = 1) := by
  refine ⟨?_, by norm_num [display_results], by norm_num [display_results], ?_, ?_⟩
  · simp [display_results, and_assoc]
  · unfold main_exit
    rcases h1 : check_env_vars cfg.env (required_vars cfg.env) with _ | _ <;>
      rcases h2 : cfg.datasetFileExists with _ | _ <;>
      rcases h3 : display_results cfg.scores with _ | _ <;> simp [h1, h2, h3]
  · unfold main_exit
    rcases check_env_vars cfg.env (required_vars cfg.env) with _ | _ <;>
      rcases cfg.datasetFileExists with _ | _ <;>
      rcases display_results cfg.scores with _ | _ <;> simp

/-! ## Dataset loader (`load_dataset_from_jsonl`, `src/evaluate.py` lines 48-70) -/

/-- One line of a JSONL file after `line.strip()`: blank, a line that parses
as a JSON value of type `α`, or a line on which `json.loads` raises
`JSONDecodeError`. -/
inductive JsonLine (α : Type) where
  | blank : JsonLine α
  | parsed (v : α) : JsonLine α
  | malformed : JsonLine α
deriving DecidableEq, Repr

/-- The loop body of `load_dataset_from_jsonl`: blank lines are skipped,
parsed lines are appended to the accumulator, and a malformed line raises
`json.JSONDecodeError`, which the handler turns into `[]`, discarding the
accumulator. -/
def loadLoop {α : Type} : List (JsonLine α) → List α → List α
  | [], acc => acc
  | .blank :: rest, acc => loadLoop rest acc
  | .parsed v :: rest, acc => loadLoop rest (acc ++ [v])
  | .malformed :: _, _ => []

/-- Embedding of `load_dataset_from_jsonl` (`src/evaluate.py`, lines 48-70).  The file is
`none` when opening raises (`FileNotFoundError` or any other I/O error), in
which case the handlers return `[]`; otherwise the lines are processed by the
loop. -/
def load_dataset_from_jsonl {α : Type} (file : Option (List (JsonLine α))) : List α :=
  match file with
  | none => []
  | some lines => loadLoop lines []

/-- Reference definition from the spec's words for C4: if the file is
readable and every non-blank line parses, the parsed objects of the non-blank
lines in file order; empty otherwise. -/
def load_dataset_ref {α : Type} (file : Option (List (JsonLine α))) : List α :=
  match file with
  | none => []
  | some lines =>
      if lines.any (fun l => l matches .malformed) then []
      else lines.filterMap (fun l => match l with | .parsed v => some v | _ => none)

/-- The loop returns `acc` followed by the parsed values when no line is
malformed, and `[]` as soon as any line is malformed. -/
theorem loadLoop_eq {α : Type} (lines : List (JsonLine α)) (acc : List α) :
    loadLoop lines acc =
      if lines.any (fun l => l matches .malformed) then []
      else acc ++ lines.filterMap
        (fun l => match l with | .parsed v => some v | _ => none) := by
  induction lines generalizing acc with
  | nil => simp [loadLoop]
  | cons hd tl ih =>
      cases hd with
      | blank => simp [loadLoop, ih]
      | parsed v =>
          simp only [loadLoop, ih, List.any_cons, List.filterMap_cons]
          by_cases h : tl.any (fun l => l matches .malformed) = true <;> simp [h]
      | malformed => simp [loadLoop]

/-- C4: `load_dataset_from_jsonl` coincides with the spec's reference
definition on every input: parsed non-blank lines in file order when the file
is readable and wholly well-formed; the empty sequence (never an exception)
on a missing file, a malformed line anywhere, or any other I/O error. -/
theorem load_dataset_matches_ref {α : Type} (file : Option (List (JsonLine α))) :
    load_dataset_from_jsonl file = load_dataset_ref file := by
  cases file with
  | none => rfl
  | some lines => simp [load_dataset_from_jsonl, load_dataset_ref, loadLoop_eq]

/-! ## Example runner (`evaluate_prompt_on_example`, `src/evaluate.py` lines 143-178) -/

/-- A Python `dict[str, str]` as an association list (first binding wins). -/
abbrev Dict : Type := List (String × String)

/-- Python `d.get(k, default)`. -/
def dget (d : Dict) (k dflt : String) : String :=
  (d.lookup k).getD dflt

/-- One dataset example as seen by the runner, after the attribute probes of
lines 149-150: `inputs`/`outputs` are `none` when the attribute holds a
non-mapping value (a missing attribute yields the mapping `{}`, i.e.
`some []`). -/
structure PyExample where
  inputs : Option Dict
  outputs : Option Dict
deriving DecidableEq

/-- The per-example record returned by `evaluate_prompt_on_example`
(`src/evaluate.py`, lines 164-168 and 174-178). -/
structure EvaluationResult where
  answer : String
  reference : String
  question : String
deriving DecidableEq, Repr

/-- The question derivation of lines 159-162:
`inputs.get("question", inputs.get("bug_report", inputs.get("pr_title", "N/A")))`
when `inputs` is a dict, `"N/A"` otherwise. -/
def derive_question (inputs : Option Dict) : String :=
  match inputs with
  | some d => dget d "question" (dget d "bug_report" (dget d "pr_title" "N/A"))
  | none => "N/A"

/-- The reference derivation of line 157:
`outputs.get("reference", "")` when `outputs` is a dict, `""` otherwise. -/
def derive_reference (outputs : Option Dict) : String :=
  match outputs with
  | some d => dget d "reference" ""
  | none => ""

/-- Embedding of `evaluate_prompt_on_example` (`src/evaluate.py`, lines 143-178).  The
chain invocation `(prompt_template | llm).invoke(inputs)` followed by
`.content` is modelled by its outcome `invokeResult`: `.ok answer` when every
step succeeded, `.error e` when any step raised — in which case the handler
of lines 170-178 returns the all-empty record. -/
def evaluate_prompt_on_example (invokeResult : Except String String)
    (ex : PyExample) : EvaluationResult :=
  match invokeResult with
  | .error _ => ⟨"", "", ""⟩
  | .ok answer =>
      ⟨answer, derive_reference ex.outputs, derive_question ex.inputs⟩

/-- Specification-side restatement of the probing order for C5: the value of
the first present key among `question`, `bug_report`, `pr_title`, else
`"N/A"`. -/
def derive_question_ref (inputs : Option Dict) : String :=
  match inputs with
  | none => "N/A"
  | some d =>
      match List.lookup "question" d with
      | some v => v
      | none =>
          match List.lookup "bug_report" d with
          | some v => v
          | none => (List.lookup "pr_title" d).getD "N/A"

/-- Specification-side restatement of the reference derivation for C5. -/
def derive_reference_ref (outputs : Option Dict) : String :=
  match outputs with
  | none => ""
  | some d => (List.lookup "reference" d).getD ""

/-- C5: on the success path, `evaluate_prompt_on_example` derives `question`
by probing the keys `question`, `bug_report`, `pr_title` in that priority
order, with `"N/A"` when none is present or `inputs` is not a mapping, and
derives `reference` as `outputs["reference"]`, or `""` when `outputs` is not
a mapping or lacks the key. -/
theorem question_and_reference_derivation (invokeResult : Except String String)
    (ex : PyExample) (answer : String)
    (h : invokeResult = .ok answer) :
    evaluate_prompt_on_example invokeResult ex =
      ⟨answer, derive_reference_ref ex.outputs,
        derive_question_ref ex.inputs⟩ := by
  subst h
  have hr : derive_reference ex.outputs = derive_reference_ref ex.outputs := by
    unfold derive_reference derive_reference_ref dget
    cases ex.outputs <;> rfl
  have hq : derive_question ex.inputs = derive_question_ref ex.inputs := by
    cases ex.inputs with
    | none => rfl
    | some d =>
        simp only [derive_question, derive_question_ref, dget]
        rcases h1 : List.lookup "question" d with _ | v1 <;>
          rcases h2 : List.lookup "bug_report" d with _ | v2 <;>
            simp [h1, h2]
  simp [evaluate_prompt_on_example, hr, hq]

/-- Witness for C5 at a concrete example: `question` absent, `bug_report`
present. -/
theorem question_and_reference_derivation_witness :
    evaluate_prompt_on_example (.ok "story")
        ⟨some [("bug_report", "Login fails on submit")],
         some [("reference", "gold")]⟩ =
      ⟨"story", "gold", "Login fails on submit"⟩ :=
  question_and_reference_derivation (.ok "story")
    ⟨some [("bug_report", "Login fails on submit")], some [("reference", "gold")]⟩
    "story" rfl

/-! ## Aggregator (`evaluate_prompt`, `src/evaluate.py` lines 181-236) -/

/-- An opaque prompt identifier/template pair is not needed for the
aggregator; the pulled template is abstract here. -/
structure PromptTemplateHandle where
  id : Nat
deriving DecidableEq

/-- The four metric evaluators imported from `src/metrics.py` (absent from
the provided sources).  Per the spec's contract shape, each takes
`(source_text, generated_text, reference_text)` and returns a score; the
aggregator depends on nothing else about them, so they are parameters. -/
structure Metrics where
  tone : String → String → String → ℚ
  acceptance_criteria : String → String → String → ℚ
  format : String → String → String → ℚ
  completeness : String → String → String → ℚ

/-- The four parallel score lists built by the loop of `src/evaluate.py`
lines 194-215: an example contributes one score to each list when its
`answer` is non-empty (Python truthiness of `result["answer"]`), in loop
order; otherwise it contributes nothing. -/
def scoreLoop (M : Metrics) : List EvaluationResult → List ℚ × List ℚ × List ℚ × List ℚ
  | [] => ([], [], [], [])
  | r :: rest =>
      let (t, a, f, c) := scoreLoop M rest
      if r.answer ≠ "" then
        (M.tone r.question r.answer r.reference :: t,
         M.acceptance_criteria r.question r.answer r.reference :: a,
         M.format r.question r.answer r.reference :: f,
         M.completeness r.question r.answer r.reference :: c)
      else (t, a, f, c)

/-- Python `sum(scores) / len(scores) if scores else 0.0`
(`src/evaluate.py` lines 217-220). -/
def pyAvg (l : List ℚ) : ℚ :=
  if l.isEmpty then 0 else l.sum / l.length

/-- Python `round(x, 4)` (`src/evaluate.py` lines 223-226): the value scaled
by `10^4`, rounded to an integer, and scaled back.  (Python rounds exact ties
to even where this rounds them up; no claim depends on tie behaviour, and
both sides of every theorem below use this same definition.) -/
def round4 (x : ℚ) : ℚ :=
  ((round (x * 10000) : ℤ) : ℚ) / 10000

/-- Python `examples[:max_examples]` (`src/evaluate.py` line 199): for a
non-negative bound, the first `max_examples` elements; for a negative bound,
all but the last `-max_examples` elements (Python slice semantics:
`stop = max(0, len + stop)` for negative `stop`). -/
def pySliceTo {α : Type} (xs : List α) (stop : Int) : List α :=
  if 0 ≤ stop then xs.take stop.toNat
  else xs.take ((xs.length + stop).toNat)

/-- The prefix of the dataset actually iterated by the aggregator's loop
(`for i, example in enumerate(examples[:max_examples], 1)`). -/
def processed_examples (examples : List PyExample) (max_examples : Int) : List PyExample :=
  pySliceTo examples max_examples

/-- Embedding of `pull_prompt_from_langsmith` (`src/evaluate.py`, lines 107-140): returns
the template when `hub.pull` succeeds; when it raises, prints remediation
guidance and re-raises the same exception (`raise` at line 140). -/
def pull_prompt_from_langsmith (hubPull : Except String PromptTemplateHandle) :
    Except String PromptTemplateHandle :=
  match hubPull with
  | .ok prompt => .ok prompt
  | .error e => .error e

/-- Embedding of `evaluate_prompt` (`src/evaluate.py`, lines 181-236), as a function of
the outcome of `hub.pull`, the listed dataset examples, the bound, the
metric evaluators, and the outcome of each chain invocation.  The
`try`/`except` of lines 187-236 turns any raised exception — in this model,
the re-raise from `pull_prompt_from_langsmith` — into the all-zero record. -/
def evaluate_prompt (M : Metrics) (hubPull : Except String PromptTemplateHandle)
    (examples : List PyExample) (max_examples : Int)
    (invoke : PromptTemplateHandle → PyExample → Except String String) : Scores :=
  match pull_prompt_from_langsmith hubPull with
  | .error _ => ⟨0, 0, 0, 0⟩
  | .ok tmpl =>
      let results := (processed_examples examples max_examples).map
        (fun ex => evaluate_prompt_on_example (invoke tmpl ex) ex)
      let (t, a, f, c) := scoreLoop M results
      ⟨round4 (pyAvg t), round4 (pyAvg a), round4 (pyAvg f), round4 (pyAvg c)⟩

/-- The loop's four score lists are exactly the per-metric scores of the
results with non-empty answers, in order. -/
theorem scoreLoop_eq_filter (M : Metrics) (results : List EvaluationResult) :
    scoreLoop M results =
      (let ok := results.filter (fun r => r.answer ≠ "")
       (ok.map (fun r => M.tone r.question r.answer r.reference),
        ok.map (fun r => M.acceptance_criteria r.question r.answer r.reference),
        ok.map (fun r => M.format r.question r.answer r.reference),
        ok.map (fun r => M.completeness r.question r.answer r.reference))) := by
  induction results with
  | nil => rfl
  | cons r rest ih =>
      by_cases h : r.answer = "" <;>
        simp [scoreLoop, ih, List.filter_cons, h]

/-- C2: with a successfully pulled template, each aggregate field of
`evaluate_prompt` is the arithmetic mean — rounded to 4 decimal digits — of
that metric's per-example scores over exactly the per-example results whose
answer is non-empty; and when zero examples produced a non-empty answer,
every field equals exactly 0 (no division is attempted on an empty list). -/
theorem aggregate_is_rounded_mean (M : Metrics) (tmpl : PromptTemplateHandle)
    (examples : List PyExample) (max_examples : Int)
    (invoke : PromptTemplateHandle → PyExample → Except String String) :
    (evaluate_prompt M (.ok tmpl) examples max_examples invoke =
      (let results := (processed_examples examples max_examples).map
          (fun ex => evaluate_prompt_on_example (invoke tmpl ex) ex)
       let ok := results.filter (fun r => r.answer ≠ "")
       ⟨round4 (pyAvg (ok.map (fun r => M.tone r.question r.answer r.reference))),
        round4 (pyAvg (ok.map (fun r => M.acceptance_criteria r.question r.answer r.reference))),
        round4 (pyAvg (ok.map (fun r => M.format r.question r.answer r.reference))),
        round4 (pyAvg (ok.map (fun r => M.completeness r.question r.answer r.reference)))⟩)) ∧
    (((processed_examples examples max_examples).map
        (fun ex => evaluate_prompt_on_example (invoke tmpl ex) ex)).filter
          (fun r => r.answer ≠ "") = [] →
      evaluate_prompt M (.ok tmpl) examples max_examples invoke = ⟨0, 0, 0, 0⟩) := by
  have hmain : evaluate_prompt M (.ok tmpl) examples max_examples invoke =
      (let results := (processed_examples examples max_examples).map
          (fun ex => evaluate_prompt_on_example (invoke tmpl ex) ex)
       let ok := results.filter (fun r => r.answer ≠ "")
       ⟨round4 (pyAvg (ok.map (fun r => M.tone r.question r.answer r.reference))),
        round4 (pyAvg (ok.map (fun r => M.acceptance_criteria r.question r.answer r.reference))),
        round4 (pyAvg (ok.map (fun r => M.format r.question r.answer r.reference))),
        round4 (pyAvg (ok.map (fun r => M.completeness r.question r.answer r.reference)))⟩) := by
    simp only [evaluate_prompt, pull_prompt_from_langsmith, scoreLoop_eq_filter]
  refine ⟨hmain, fun hempty => ?_⟩
  rw [hmain]
  simp only [hempty, List.map_nil, pyAvg, List.isEmpty_nil, if_true]
  norm_num [round4]

/-- Witness for C2 at a concrete input with zero non-empty answers. -/
theorem aggregate_is_rounded_mean_witness :
    evaluate_prompt ⟨fun _ _ _ => 1, fun _ _ _ => 1, fun _ _ _ => 1, fun _ _ _ => 1⟩
        (.ok ⟨0⟩) [⟨some [], some []⟩] 10 (fun _ _ => .error "model down") =
      ⟨0, 0, 0, 0⟩ :=
  (aggregate_is_rounded_mean ⟨fun _ _ _ => 1, fun _ _ _ => 1, fun _ _ _ => 1, fun _ _ _ => 1⟩
      ⟨0⟩ [⟨some [], some []⟩] 10 (fun _ _ => .error "model down")).2 (by rfl)

/-- C3: when `hub.pull` raises — prompt not found, authentication failure,
network failure — `pull_prompt_from_langsmith` re-raises, and
`evaluate_prompt` absorbs the exception and returns the all-zero
`AggregateScores` rather than propagating. -/
theorem pull_failure_yields_zero_scores (M : Metrics) (e : String)
    (examples : List PyExample) (max_examples : Int)
    (invoke : PromptTemplateHandle → PyExample → Except String String) :
    pull_prompt_from_langsmith (.error e) = .error e ∧
    evaluate_prompt M (.error e) examples max_examples invoke = ⟨0, 0, 0, 0⟩ :=
  ⟨rfl, rfl⟩

/-- C6: when any step of the runner fails, `evaluate_prompt_on_example`
returns the record with `answer`, `reference` and `question` all empty
instead of propagating the exception; and the aggregator's loop appends no
score from any of the four evaluators for a result whose answer is empty, so
that example is excluded from every metric average. -/
theorem runner_failure_skips_example (ex : PyExample) (e : String) (M : Metrics)
    (rs1 rs2 : List EvaluationResult) :
    evaluate_prompt_on_example (.error e) ex = ⟨"", "", ""⟩ ∧
    scoreLoop M (rs1 ++ ⟨"", "", ""⟩ :: rs2) = scoreLoop M (rs1 ++ rs2) := by
  refine ⟨rfl, ?_⟩
  induction rs1 with
  | nil => simp [scoreLoop]
  | cons r rest ih => simp [scoreLoop, ih]

/-- C7 counterexample: with a 2-example dataset and `max_examples = -1`,
Python's slice `examples[:max_examples]` makes the loop run the runner on 1
example, and 1 is not at most -1; so the claim fails for negative
`max_examples` values. -/
theorem negative_max_examples_counterexample :
    ¬ (((processed_examples [⟨some [], some []⟩, ⟨some [], some []⟩] (-1)).length : Int)
        ≤ -1) := by
  decide

/-- C7 (amended): the examples processed by `evaluate_prompt` are always a
prefix of the dataset in its native order (no shuffling, no reordering), and
for every non-negative `max_examples` the prefix has length at most
`max_examples`.  (For a negative bound, Python slicing drops that many
trailing examples instead: still a prefix, but the "at most" bound fails.) -/
theorem processed_examples_prefix_bound (examples : List PyExample) (m : Int) :
    processed_examples examples m <+: examples ∧
    (0 ≤ m → ((processed_examples examples m).length : Int) ≤ m) := by
  constructor
  · unfold processed_examples pySliceTo
    by_cases h : 0 ≤ m <;> simp [h, List.take_prefix]
  · intro h
    unfold processed_examples pySliceTo
    rw [if_pos h]
    have h1 : (examples.take m.toNat).length ≤ m.toNat := by simp
    calc ((examples.take m.toNat).length : Int) ≤ (m.toNat : Int) := by exact_mod_cast h1
      _ = m := Int.toNat_of_nonneg h

/-- Witness for the amended C7 at a concrete dataset and bound. -/
theorem processed_examples_prefix_bound_witness :
    processed_examples [⟨some [], some []⟩] 1 <+: [⟨some [], some []⟩] ∧
    ((processed_examples [⟨some [], some []⟩] 1).length : Int) ≤ 1 :=
  ⟨(processed_examples_prefix_bound [⟨some [], some []⟩] 1).1,
   (processed_examples_prefix_bound [⟨some [], some []⟩] 1).2 (by decide)⟩

/-! ## Push / pull round trip (`src/push_prompts.py` lines 37-56,
`src/pull_prompts.py` lines 52-59) -/

/-- One `{role, content}` entry of a prompt YAML's `messages` list.  The
`.get` defaults of the source (`msg.get("role", "system")`,
`msg.get("content", "")`) are modelled by `Option` with `getD`. -/
structure YamlMsg where
  role : Option String
  content : Option String
deriving DecidableEq, Repr

/-- Modelled from the spec: a LangChain message prompt template, one element
of the registry's `PromptTemplate` ("an ordered sequence of role-tagged
message templates, each containing a parameterized text template").  The
constructors stand for the classes `SystemMessagePromptTemplate`,
`HumanMessagePromptTemplate`, `AIMessagePromptTemplate` and
`ChatMessagePromptTemplate`; the string is the `prompt.template` text. -/
inductive MessagePromptTemplate where
  | system (template : String)
  | human (template : String)
  | ai (template : String)
  | chat (role : String) (template : String)
deriving DecidableEq, Repr

/-- Modelled from the spec: a LangChain `ChatPromptTemplate` is its ordered
message list (the spec treats it as "immutable and opaque beyond its message
list"). -/
structure ChatPromptTemplate where
  messages : List MessagePromptTemplate
deriving DecidableEq, Repr

/-- Modelled from the spec: `ChatPromptTemplate.from_messages` turns each
(role, content) pair into the message-template class of that role, keeping
the content as the template text. -/
def from_messages (msgs : List (String × String)) : ChatPromptTemplate :=
  ⟨msgs.map (fun p =>
    if p.1 = "system" then .system p.2
    else if p.1 = "human" then .human p.2
    else if p.1 = "ai" then .ai p.2
    else .chat p.1 p.2)⟩

/-- The message-pair construction of `push_prompt_to_langsmith`
(`src/push_prompts.py`, lines 38-50): each YAML message becomes a
(role, content) tuple (every branch of the role dispatch appends the same
pair its branch matched). -/
def push_build_messages (data_msgs : List YamlMsg) : List (String × String) :=
  data_msgs.map (fun msg =>
    let role := msg.role.getD "system"
    let content := msg.content.getD ""
    if role = "system" then ("system", content)
    else if role = "human" then ("human", content)
    else if role = "ai" then ("ai", content)
    else (role, content))

/-- Embedding of `push_prompt_to_langsmith` (`src/push_prompts.py`, lines 37-56), up to
the registry: `none` when the YAML has no messages (the function returns
`False` without pushing); otherwise the `ChatPromptTemplate` handed to
`hub.push`, which the registry stores and `hub.pull` later returns. -/
def push_prompt_to_langsmith (data_msgs : List YamlMsg) : Option ChatPromptTemplate :=
  let messages := push_build_messages data_msgs
  if messages.isEmpty then none
  else some (from_messages messages)

/-- The role string `pull_prompts_from_langsmith` recovers from a message's
class name via
`__class__.__name__.replace("MessagePromptTemplate", "").replace("Message", "").lower()`
(`src/pull_prompts.py`, line 56). -/
def serialized_role : MessagePromptTemplate → String
  | .system _ => "system"
  | .human _ => "human"
  | .ai _ => "ai"
  | .chat _ _ => "chat"

/-- The content `pull_prompts_from_langsmith` recovers from a message
(`src/pull_prompts.py`, line 57): its `prompt.template`. -/
def serialized_content : MessagePromptTemplate → String
  | .system t => t
  | .human t => t
  | .ai t => t
  | .chat _ t => t

/-- The `messages` entries written by `pull_prompts_from_langsmith`
(`src/pull_prompts.py`, lines 52-59): one (role, content) pair per message of
the pulled template, in order. -/
def pull_serialize_messages (prompt : ChatPromptTemplate) : List (String × String) :=
  prompt.messages.map (fun msg => (serialized_role msg, serialized_content msg))

/-- Each branch of the push-side role dispatch returns exactly the
(role, content) pair it matched. -/
theorem push_build_messages_eq (data_msgs : List YamlMsg) :
    push_build_messages data_msgs =
      data_msgs.map (fun m => (m.role.getD "system", m.content.getD "")) := by
  unfold push_build_messages
  refine List.map_congr_left (fun m _ => ?_)
  by_cases h1 : m.role.getD "system" = "system" <;>
    by_cases h2 : m.role.getD "system" = "human" <;>
    by_cases h3 : m.role.getD "system" = "ai" <;>
    simp [h1, h2, h3]

/-- Serializing the template built from role/content pairs returns the pairs
unchanged when every role is `system`, `human` or `ai`. -/
theorem pull_serialize_from_messages (pairs : List (String × String))
    (hroles : ∀ p ∈ pairs, p.1 = "system" ∨ p.1 = "human" ∨ p.1 = "ai") :
    pull_serialize_messages (from_messages pairs) = pairs := by
  unfold pull_serialize_messages from_messages
  simp only [List.map_map]
  conv_rhs => rw [← List.map_id pairs]
  refine List.map_congr_left (fun p hp => ?_)
  rcases hroles p hp with h | h | h <;>
    simp [Function.comp, h, serialized_role, serialized_content, Prod.ext_iff]

/-- C8: for a prompt YAML whose messages all carry roles `system`, `human`
or `ai`, pushing (building the `ChatPromptTemplate` from the role/content
pairs) and then pulling back (serializing the stored template's messages to
role/content pairs) preserves the message count and the order-sensitive
pairing of each role with its content. -/
theorem push_pull_round_trip (data_msgs : List YamlMsg)
    (hroles : ∀ m ∈ data_msgs, m.role.getD "system" = "system" ∨
      m.role.getD "system" = "human" ∨ m.role.getD "system" = "ai")
    (tmpl : ChatPromptTemplate)
    (hpush : push_prompt_to_langsmith data_msgs = some tmpl) :
    (pull_serialize_messages tmpl).length = data_msgs.length ∧
    pull_serialize_messages tmpl =
      data_msgs.map (fun m => (m.role.getD "system", m.content.getD "")) := by
  have htmpl : tmpl = from_messages (push_build_messages data_msgs) := by
    unfold push_prompt_to_langsmith at hpush
    by_cases h : (push_build_messages data_msgs).isEmpty <;> simp [h] at hpush
    exact hpush.symm
  subst htmpl
  rw [push_build_messages_eq]
  have hpairs : ∀ p ∈ data_msgs.map
      (fun m => (m.role.getD "system", m.content.getD "")),
      p.1 = "system" ∨ p.1 = "human" ∨ p.1 = "ai" := by
    intro p hp
    rcases List.mem_map.mp hp with ⟨m, hm, rfl⟩
    exact hroles m hm
  rw [pull_serialize_from_messages _ hpairs]
  simp

/-- Witness for C8 at a concrete three-message prompt YAML. -/
theorem push_pull_round_trip_witness :
    (pull_serialize_messages
        ⟨[.system "Voce e um Product Manager.",
          .human "Bug: login quebrado",
          .ai "Como usuario, eu quero entrar"]⟩).length =
      ([⟨some "system", some "Voce e um Product Manager."⟩,
        ⟨some "human", some "Bug: login quebrado"⟩,
        ⟨some "ai", some "Como usuario, eu quero entrar"⟩] : List YamlMsg).length ∧
    pull_serialize_messages
        ⟨[.system "Voce e um Product Manager.",
          .human "Bug: login quebrado",
          .ai "Como usuario, eu quero entrar"]⟩ =
      ([⟨some "system", some "Voce e um Product Manager."⟩,
        ⟨some "human", some "Bug: login quebrado"⟩,
        ⟨some "ai", some "Como usuario, eu quero entrar"⟩] : List YamlMsg).map
        (fun m => (m.role.getD "system", m.content.getD "")) :=
  push_pull_round_trip
    [⟨some "system", some "Voce e um Product Manager."⟩,
     ⟨some "human", some "Bug: login quebrado"⟩,
     ⟨some "ai", some "Como usuario, eu quero entrar"⟩]
    (by decide)
    ⟨[.system "Voce e um Product Manager.",
      .human "Bug: login quebrado",
      .ai "Como usuario, eu quero entrar"]⟩
    (by rfl)

/-! ## Credential printed by `main` (`src/evaluate.py` line 294) -/

/-- How Python `print` renders an `os.getenv` result: the string itself, or
the text `None` when the variable is unset. -/
def pyStr : Option String → String
  | some s => s
  | none => "None"

/-- The standard-output lines `main` produces before `check_env_vars` runs
(`src/evaluate.py`, lines 282-295): the banner of line 282, then line 294's
`print("a chave openai é ", os.getenv("OPENAI_API_KEY"))`, whose two
arguments are joined by the default separator `" "`.  Lines 284-292 read the
environment but print nothing. -/
def main_prints_before_check (env : Env) : List String :=
  ["Executando avaliação dos prompts...",
   "a chave openai é " ++ " " ++ pyStr (env "OPENAI_API_KEY")]

/-- Strings with a common prefix are equal iff their suffixes are. -/
theorem string_append_left_cancel {s a b : String} (h : s ++ a = s ++ b) :
    a = b := by
  apply String.ext
  have hd := congrArg String.data h
  rw [String.data_append, String.data_append] at hd
  exact List.append_cancel_left hd

/-- C9: whenever `OPENAI_API_KEY` is set, `main` prints its literal value to
standard output before the credential check runs, and two runs that differ
only in that secret produce different observable output: the program is not
noninterfering with respect to the credential. -/
theorem openai_key_printed (env1 env2 : Env) (k1 k2 : String)
    (h1 : env1 "OPENAI_API_KEY" = some k1)
    (h2 : env2 "OPENAI_API_KEY" = some k2)
    (hne : k1 ≠ k2) :
    main_prints_before_check env1 =
      ["Executando avaliação dos prompts...",
       "a chave openai é " ++ " " ++ k1] ∧
    main_prints_before_check env1 ≠ main_prints_before_check env2 := by
  constructor
  · unfold main_prints_before_check
    rw [h1]
    rfl
  · unfold main_prints_before_check
    rw [h1, h2]
    intro heq
    rw [List.cons.injEq, List.cons.injEq] at heq
    exact hne (string_append_left_cancel heq.2.1)

/-- Witness for C9: two environments that differ only in the key value. -/
theorem openai_key_printed_witness :
    main_prints_before_check
        (fun v => if v = "OPENAI_API_KEY" then some "sk-aaa" else none) =
      ["Executando avaliação dos prompts...",
       "a chave openai é " ++ " " ++ "sk-aaa"] ∧
    main_prints_before_check
        (fun v => if v = "OPENAI_API_KEY" then some "sk-aaa" else none) ≠
      main_prints_before_check
        (fun v => if v = "OPENAI_API_KEY" then some "sk-bbb" else none) :=
  openai_key_printed
    (fun v => if v = "OPENAI_API_KEY" then some "sk-aaa" else none)
    (fun v => if v = "OPENAI_API_KEY" then some "sk-bbb" else none)
    "sk-aaa" "sk-bbb" (by simp) (by simp) (by decide)

/-! ## Prompt validation (`validate_prompt`, `src/push_prompts.py` lines 95-123) -/

/-- The prompt-data dictionary as `validate_prompt` reads it:
`prompt_data.get("messages", [])` is modelled by an optional message list
with default `[]`. -/
structure PromptData where
  messages : Option (List YamlMsg)
deriving DecidableEq

/-- The empty-content loop of `validate_prompt` (`src/push_prompts.py`,
lines 118-121): `for i, msg in enumerate(messages)`, appending
`f"Mensagem {i} está vazia"` whenever `msg.get("content", "").strip()` is
falsy; `i` starts at the given index. -/
def emptyMsgErrors : List YamlMsg → Nat → List String
  | [], _ => []
  | msg :: rest, i =>
      (if (msg.content.getD "").trim = "" then
        ["Mensagem " ++ toString i ++ " está vazia"]
       else []) ++ emptyMsgErrors rest (i + 1)

/-- Embedding of `validate_prompt` (`src/push_prompts.py`, lines 95-123): collects one
error for no messages, one for no system-role message
(`msg.get("role") == "system"`), and one per message whose stripped content
is empty, returning `(len(errors) == 0, errors)`. -/
def validate_prompt (prompt_data : PromptData) : Bool × List String :=
  let messages := prompt_data.messages.getD []
  let errors :=
    (if messages.isEmpty then ["Prompt não contém mensagens"] else []) ++
    (if messages.any (fun msg => msg.role == some "system") then []
     else ["Prompt não contém system prompt"]) ++
    emptyMsgErrors messages 0
  (errors.isEmpty, errors)

/-- The empty-content loop yields no error iff every message's stripped
content is non-empty. -/
theorem emptyMsgErrors_eq_nil (msgs : List YamlMsg) (i : Nat) :
    emptyMsgErrors msgs i = [] ↔
      ∀ m ∈ msgs, (m.content.getD "").trim ≠ "" := by
  induction msgs generalizing i with
  | nil => simp [emptyMsgErrors]
  | cons m rest ih =>
      by_cases h : (m.content.getD "").trim = "" <;>
        simp [emptyMsgErrors, h, ih]

/-- The empty-content loop yields one error per message with empty stripped
content. -/
theorem emptyMsgErrors_length (msgs : List YamlMsg) (i : Nat) :
    (emptyMsgErrors msgs i).length =
      msgs.countP (fun m => (m.content.getD "").trim == "") := by
  induction msgs generalizing i with
  | nil => simp [emptyMsgErrors]
  | cons m rest ih =>
      by_cases h : (m.content.getD "").trim = "" <;>
        simp [emptyMsgErrors, h, ih, List.countP_cons]

/-- The empty-content loop reports index `j` relative to its start `i` when
message `j` of its list has empty stripped content. -/
theorem emptyMsgErrors_mem (msgs : List YamlMsg) (i j : Nat)
    (hj : j < msgs.length)
    (hempty : ((msgs.get ⟨j, hj⟩).content.getD "").trim = "") :
    ("Mensagem " ++ toString (i + j) ++ " está vazia") ∈ emptyMsgErrors msgs i := by
  induction msgs generalizing i j with
  | nil => exact absurd hj (by simp)
  | cons m rest ih =>
      cases j with
      | zero =>
          simp only [List.get] at hempty
          simp [emptyMsgErrors, hempty]
      | succ j' =>
          have hj' : j' < rest.length := by
            simpa using Nat.lt_of_succ_lt_succ hj
          have := ih (i + 1) j' hj' (by simpa using hempty)
          have harith : i + 1 + j' = i + (j' + 1) := by omega
          rw [harith] at this
          simp [emptyMsgErrors, this]

/-- C10: `validate_prompt` returns `(True, [])` iff the messages list is
non-empty, at least one message has role `system`, and every message's
content is non-empty after stripping; otherwise it returns `(False, errs)`
with `errs` non-empty, holding one diagnostic per violated condition (one
each for the first two conditions, one per content-empty message, with its
index).  Being a pure function of its argument, it raises nothing and
mutates nothing. -/
theorem validate_prompt_correct (p : PromptData) :
    ((validate_prompt p).1 = true ↔
      (p.messages.getD [] ≠ [] ∧
       (∃ m ∈ p.messages.getD [], m.role = some "system") ∧
       ∀ m ∈ p.messages.getD [], (m.content.getD "").trim ≠ "")) ∧
    ((validate_prompt p).1 = true ↔ (validate_prompt p).2 = []) ∧
    ((validate_prompt p).1 = false → (validate_prompt p).2 ≠ []) ∧
    ((validate_prompt p).2.length =
      (if (p.messages.getD []).isEmpty then 1 else 0) +
      (if (p.messages.getD []).any (fun m => m.role == some "system") then 0
       else 1) +
      (p.messages.getD []).countP (fun m => (m.content.getD "").trim == "")) ∧
    (p.messages.getD [] = [] →
      "Prompt não contém mensagens" ∈ (validate_prompt p).2) ∧
    ((¬ ∃ m ∈ p.messages.getD [], m.role = some "system") →
      "Prompt não contém system prompt" ∈ (validate_prompt p).2) ∧
    (∀ j, ∀ hj : j < (p.messages.getD []).length,
      (((p.messages.getD []).get ⟨j, hj⟩).content.getD "").trim = "" →
      ("Mensagem " ++ toString j ++ " está vazia") ∈ (validate_prompt p).2) := by
  set msgs := p.messages.getD [] with hmsgs
  have hval : validate_prompt p =
      (((if msgs.isEmpty then ["Prompt não contém mensagens"] else []) ++
        (if msgs.any (fun msg => msg.role == some "system") then []
         else ["Prompt não contém system prompt"]) ++
        emptyMsgErrors msgs 0).isEmpty,
       (if msgs.isEmpty then ["Prompt não contém mensagens"] else []) ++
        (if msgs.any (fun msg => msg.role == some "system") then []
         else ["Prompt não contém system prompt"]) ++
        emptyMsgErrors msgs 0) := rfl
  have hiff : (validate_prompt p).1 = true ↔ (validate_prompt p).2 = [] := by
    rw [hval]
    simp [List.isEmpty_iff]
  refine ⟨?_, hiff, ?_, ?_, ?_, ?_, ?_⟩
  · rw [hval]
    by_cases h1 : msgs.isEmpty <;>
      by_cases h2 : msgs.any (fun msg => msg.role == some "system") <;>
        simp_all [emptyMsgErrors_eq_nil, List.any_eq_true, List.isEmpty_iff]
  · intro h hnil
    have htrue := hiff.mpr hnil
    rw [htrue] at h
    cases h
  · rw [hval]
    by_cases h1 : msgs.isEmpty <;>
      by_cases h2 : msgs.any (fun msg => msg.role == some "system") <;>
        (simp [h1, h2, emptyMsgErrors_length]; try omega)
  · intro h
    rw [hval]
    simp [h]
  · intro h
    rw [hval]
    have h2 : msgs.any (fun msg => msg.role == some "system") = false := by
      rw [List.any_eq_false]
      intro m hm
      simp only [beq_iff_eq]
      exact fun hrole => h ⟨m, hm, hrole⟩
    simp [h2]
  · intro j hj hempty
    rw [hval]
    have := emptyMsgErrors_mem msgs 0 j hj hempty
    rw [Nat.zero_add] at this
    simp [this]

/-- Witness for C10: a prompt whose only message lacks a system role and has
blank content is rejected with a non-empty error list. -/
theorem validate_prompt_correct_witness :
    (validate_prompt ⟨some [⟨some "human", some "   "⟩]⟩).1 = false ∧
    (validate_prompt ⟨some [⟨some "human", some "   "⟩]⟩).2 ≠ [] :=
  ⟨by decide,
   (validate_prompt_correct ⟨some [⟨some "human", some "   "⟩]⟩).2.2.1 (by decide)⟩
